import Mathlib

/-!
Verification of the multi-message response orchestration of the Niya
frontend (a WhatsApp-styled chat client).  The definitions below are a
shallow embedding of the TypeScript source:

* `Message`, `Role` — the message record of `src` (`lib/types`), with the
  optional sequence metadata used by the multi-message path.
* `typingDelay`, `displayEvents`, `revealLoop`, `revealEvents` — the reveal
  cycle of `displayMessageWithTyping` and the loop body of
  `sendMessageWithMultiResponse` (App component), reified as the ordered
  list of observable events (typing-flag writes, awaited delays, store
  appends) the code performs for one `ReplyBatch`.
* `normalizeSend` — the response-normalization logic of `chatApi.sendMessage`.
* `sendMessageMultiDemo` — the demo branch of `chatApi.sendMessageMulti`.
* `fallbackAppends` — the state transition of `sendMessageFallback`.
* `processStream` — the event loop of `chatApi.sendMessageStream`.
* `appendTimes`, `twoTurnStoreOrder` — the absolute append instants of the
  reveal cycle under the JS timer model (timers fire in time order), used
  to analyse two overlapping user turns.
-/

namespace NiyaFrontend

/-- `role` field of a `Message` (`'user' | 'assistant'`). -/
inductive Role where
  | user
  | assistant
deriving Repr, DecidableEq

/-- The `Message` record of `lib/types`, including the optional multi-message
sequence metadata (`isMultiMessage`, `isFirst`, `isAdditional`,
`messageIndex`, `totalMessages`) attached by the multi-message paths.
Timestamps are milliseconds since epoch (`Date.now()`), modelled as `Nat`. -/
structure Message where
  id : String
  chatId : String
  userId : String
  agentId : String
  content : String
  role : Role
  timestamp : Nat
  isMultiMessage : Option Bool := none
  isFirst : Option Bool := none
  isAdditional : Option Bool := none
  messageIndex : Option Nat := none
  totalMessages : Option Nat := none
deriving Repr, DecidableEq

/-- `Math.min(content.length * 50, 3000)` — the typing delay
`displayMessageWithTyping` awaits before appending a message. -/
def typingDelay (content : String) : Nat :=
  min (content.length * 50) 3000

/-- One observable event of a reveal cycle: a write to the `isSending`
flag, an awaited timer of `ms` milliseconds, or an append to the message
store (`setMessages(prev => [...prev, m])`). -/
inductive Ev where
  | setSending (b : Bool)
  | delay (ms : Nat)
  | append (m : Message)
deriving Repr, DecidableEq

/-- The events of one `displayMessageWithTyping(m, options)` call, in program
order: set `isSending` true when `options.isFirst`; await the typing delay;
set `isSending` false when `options.isFirst || !options.isAdditional`;
append the message. -/
def displayEvents (m : Message) (isFirst isAdditional : Bool) : List Ev :=
  (if isFirst then [Ev.setSending true] else []) ++
  [Ev.delay (typingDelay m.content)] ++
  (if isFirst || !isAdditional then [Ev.setSending false] else []) ++
  [Ev.append m]

/-- The loop of `sendMessageWithMultiResponse` over the fragments of a batch:
fragment `i` is displayed with `isFirst = (i = 0)`, `isAdditional = (i > 0)`,
and a fixed 1500 ms pause is awaited after every fragment but the last.
The Boolean argument tells whether the head of the remaining list is
fragment 0 of the batch. -/
def revealLoop : Bool → List Message → List Ev
  | _, [] => []
  | isFirst, m :: rest =>
    displayEvents m isFirst (!isFirst) ++
    (if rest.isEmpty then [] else [Ev.delay 1500]) ++
    revealLoop false rest

/-- The full event trace of revealing one `ReplyBatch`. -/
def revealEvents (msgs : List Message) : List Ev :=
  revealLoop true msgs

/-- Accumulates, for each append of the trace, the total awaited delay since
the previous append (for the first append: since the start of the cycle). -/
def appendDelaysAux : List Ev → Nat → List Nat
  | [], _ => []
  | Ev.delay d :: rest, acc => appendDelaysAux rest (acc + d)
  | Ev.append _ :: rest, acc => acc :: appendDelaysAux rest 0
  | Ev.setSending _ :: rest, acc => appendDelaysAux rest acc

/-- For each append of a trace, the total delay awaited since the previous
append (first entry: delay from cycle start to the first append). -/
def appendDelays (evs : List Ev) : List Nat :=
  appendDelaysAux evs 0

/-- Whether a trace contains any write to the `isSending` flag. -/
def hasSetSending : List Ev → Bool
  | [] => false
  | Ev.setSending _ :: _ => true
  | _ :: rest => hasSetSending rest

/-- A message with only the fields the reveal-cycle theorems inspect. -/
def plainMsg (content : String) (ts : Nat) : Message :=
  { id := "m", chatId := "c", userId := "ai", agentId := "priya",
    content := content, role := Role.assistant, timestamp := ts }

/-! ## Gateway normalization (`chatApi.sendMessage`, real path) -/

/-- An element of a backend `data.messages` array: either a bare string or a
message-like object whose text the code reads as `msg.content`
(`typeof msg === 'string' ? msg : msg.content`). -/
inductive MsgLike where
  | str (s : String)
  | obj (content : String)
deriving Repr, DecidableEq

/-- `typeof msg === 'string' ? msg : msg.content`. -/
def MsgLike.text : MsgLike → String
  | MsgLike.str s => s
  | MsgLike.obj c => c

/-- The nested `data` object a backend reply may carry. -/
structure RawData where
  content? : Option String := none
  messages? : Option (List MsgLike) := none
  id? : Option String := none
  timestamp? : Option Nat := none
deriving Repr, DecidableEq

/-- The JSON shape `chatApi.sendMessage` receives from the backend, with
every field it probes.  `none` models an absent field. -/
structure RawResponse where
  isMultiMessage : Bool := false
  is_multi_message : Bool := false
  messages? : Option (List String) := none
  data? : Option RawData := none
  content? : Option String := none
  id? : Option String := none
  timestamp? : Option Nat := none
deriving Repr, DecidableEq

/-- JS truthiness of an optional string field (`undefined` and `""` are
falsy). -/
def strTruthy : Option String → Option String
  | some s => if s = "" then none else some s
  | none => none

/-- JS truthiness of an optional number field (`undefined` and `0` are
falsy). -/
def natTruthy : Option Nat → Option Nat
  | some n => if n = 0 then none else some n
  | none => none

/-- What `chatApi.sendMessage` returns on the real path: a plain `Message`,
or the multi-message format `{isMultiMessage, messages, totalMessages,
primaryMessage}`. -/
inductive SendResult where
  | single (m : Message)
  | multi (messages : List String) (totalMessages : Nat) (primaryMessage : Message)
deriving Repr, DecidableEq

/-- The first two detection steps of `chatApi.sendMessage`: the explicit
`isMultiMessage`/`is_multi_message` flags, then the top-level `messages`
array, read only when its length exceeds 1.  Returns
`(isMultiMessage, messages, totalMessages)` as the code's three mutable
locals stand after those steps. -/
def extractTop (r : RawResponse) : Bool × List String × Nat :=
  let flag := r.isMultiMessage || r.is_multi_message
  match r.messages? with
  | some l => if l.length > 1 then (true, l, l.length) else (flag, [], 1)
  | none => (flag, [], 1)

/-- The third detection step: `result.data.messages`, again read only when
its length exceeds 1, mapping each element through `MsgLike.text`. -/
def extractNested (r : RawResponse) (prev : Bool × List String × Nat) :
    Bool × List String × Nat :=
  match r.data?.bind RawData.messages? with
  | some l => if l.length > 1 then (true, l.map MsgLike.text, l.length) else prev
  | none => prev

/-- `result.data?.content || result.content || (messages.length > 0 ?
messages[0] : 'No content')` — the priority chain for the primary
message's text. -/
def primaryContent (r : RawResponse) (msgs : List String) : String :=
  match strTruthy (r.data?.bind RawData.content?) with
  | some c => c
  | none =>
    match strTruthy r.content? with
    | some c => c
    | none =>
      match msgs with
      | [] => "No content"
      | m :: _ => m

/-- The response normalization of `chatApi.sendMessage` (real path, after a
2xx status): multi-message detection, primary-message synthesis, and the
final choice between the multi format and a single `Message`.  `now` is
`Date.now()`. -/
def normalizeSend (r : RawResponse) (chatId agentId : String) (now : Nat) :
    SendResult :=
  let e := extractNested r (extractTop r)
  let isMulti := e.1
  let msgs := e.2.1
  let total := e.2.2
  let primary : Message :=
    { id :=
        match strTruthy (r.data?.bind RawData.id?) with
        | some i => i
        | none =>
          match strTruthy r.id? with
          | some i => i
          | none => s!"msg-{now}"
      chatId := chatId
      userId := "ai"
      agentId := agentId
      content := primaryContent r msgs
      role := Role.assistant
      timestamp :=
        match natTruthy (r.data?.bind RawData.timestamp?) with
        | some t => t
        | none =>
          match natTruthy r.timestamp? with
          | some t => t
          | none => now }
  if isMulti && decide (msgs.length > 1) then
    SendResult.multi msgs total primary
  else
    SendResult.single primary

/-- The reply fragments a `SendResult` carries: the messages array of the
multi format, or the single message's content. -/
def SendResult.fragments : SendResult → List String
  | SendResult.single m => [m.content]
  | SendResult.multi msgs _ _ => msgs

/-- Whether a `SendResult` is the multi-message format. -/
def SendResult.isMulti : SendResult → Bool
  | SendResult.single _ => false
  | SendResult.multi _ _ _ => true

/-! ## Demo Responder (`chatApi.sendMessageMulti`, demo branch) -/

/-- The canned pool of `chatApi.sendMessageMulti`'s demo branch
(`demoResponses`). -/
def demoMultiPool : List String :=
  ["That's such an interesting question! I'm really glad you asked me that.",
   "You know, I've been thinking about this topic a lot lately, and I have quite a few thoughts to share.",
   "First, let me tell you what I find most fascinating about this...",
   "And another thing that really excites me is how we can explore this together!",
   "I hope this gives you some good insights to think about! 😊"]

/-- `selectedResponses.map((response, index) => ...)` — a map that also sees
the element's index, mirroring the JS callback. -/
def mapWithIndex (f : Nat → String → Message) : Nat → List String → List Message
  | _, [] => []
  | i, s :: rest => f i s :: mapWithIndex f (i + 1) rest

/-- The return shape of `chatApi.sendMessageMulti`:
`{success, data: {isMultiMessage, totalMessages, messages}}`. -/
structure MultiDemoResponse where
  success : Bool
  isMultiMessage : Bool
  totalMessages : Nat
  messages : List Message
deriving Repr, DecidableEq

/-- The demo branch of `chatApi.sendMessageMulti`: draw a fragment count
`numMessages = rand + 2 ∈ {2,3,4}` (`Math.floor(Math.random()*3)+2`), take
that many fragments from the pool, and attach the sequence metadata and the
`+index*100` timestamp offsets.  `rand` stands for the random draw. -/
def sendMessageMultiDemo (chatId agentId : String) (now : Nat) (rand : Fin 3) :
    MultiDemoResponse :=
  let numMessages := rand.val + 2
  let selected := demoMultiPool.take numMessages
  { success := true
    isMultiMessage := true
    totalMessages := numMessages
    messages := mapWithIndex
      (fun index response =>
        { id := s!"demo-multi-{now}-{index}"
          chatId := chatId
          userId := "ai"
          agentId := agentId
          content := response
          role := Role.assistant
          timestamp := now + index * 100
          isMultiMessage := some true
          isFirst := some (index == 0)
          isAdditional := some (0 < index)
          messageIndex := some (index + 1)
          totalMessages := some numMessages })
      0 selected }

/-! ## Send-path fallback (`sendMessageFallback`) -/

/-- The outcome of the `chatApi.sendMessage` call inside
`sendMessageFallback`: a response whose `content` field may be absent or
empty, or a thrown error. -/
inductive BackendOutcome where
  | ok (content? : Option String)
  | err
deriving Repr, DecidableEq

/-- Where the reply revealed by `sendMessageFallback` comes from. -/
inductive ReplySource where
  | backend
  | demo
deriving Repr, DecidableEq

/-- The state transition of `sendMessageFallback`: given the sticky
`isDemoMode` flag and the backend outcome, the new flag value and the
source of the reply that gets appended.  When not in demo mode the backend
is tried first; a truthy `content` is appended and the function returns;
a missing/empty `content` falls into the demo `setTimeout` branch without
touching the flag; a thrown error sets `isDemoMode` to `true`
(`setIsDemoMode(true)`) and then falls into the demo branch. -/
def fallbackStep (isDemoMode : Bool) (outcome : BackendOutcome) :
    Bool × ReplySource :=
  if isDemoMode then (true, ReplySource.demo)
  else
    match outcome with
    | BackendOutcome.ok (some c) =>
      if c = "" then (false, ReplySource.demo) else (false, ReplySource.backend)
    | BackendOutcome.ok none => (false, ReplySource.demo)
    | BackendOutcome.err => (true, ReplySource.demo)

/-- The canned pool of `getPriyaResponse` in the App component. -/
def priyaResponses : List String :=
  ["I'm here for you! Tell me more about what's on your mind. I love having these conversations with you.",
   "That sounds really interesting! I'd love to hear more about that. You always have such thoughtful perspectives.",
   "You're so thoughtful! I appreciate you sharing that with me. It means a lot that you trust me with your thoughts.",
   "I'm always here to listen and chat about whatever is important to you. What's been making you happy lately?",
   "Thank you for opening up to me. I enjoy our conversations so much. How are you feeling about everything?",
   "That's such an interesting way to look at it! I really appreciate how you think about things.",
   "I can tell this is important to you. I'm here to listen and support you through whatever you're going through.",
   "You have such a unique perspective on things. I always learn something new when we talk.",
   "I'm so glad you feel comfortable sharing with me. Your thoughts and feelings matter so much.",
   "That resonates with me deeply. How long have you been thinking about this?",
   "I can hear the emotion in your words. It's beautiful how deeply you feel about things.",
   "You're such a caring person. The world needs more people like you who think about these things.",
   "I love how open and honest you are with me. It makes our conversations so meaningful.",
   "That's a really important question. I think about things like that too sometimes.",
   "You always know how to make me think! I really value our conversations and your insights."]

/-- `getPriyaResponse`: a random pick from the pool (`pick` stands for
`Math.floor(Math.random() * priyaResponses.length)`). -/
def getPriyaResponse (pick : Fin 15) : String :=
  priyaResponses.getD pick.val ""

/-- The messages `sendMessageFallback` appends, per `fallbackStep`: the
backend reply when its `content` is truthy, else the demo message
`{id: ai-demo-..., content: getPriyaResponse(...)}`. -/
def fallbackAppends (isDemoMode : Bool) (outcome : BackendOutcome)
    (chatId agentId : String) (respId? : Option String) (respTs? : Option Nat)
    (now : Nat) (pick : Fin 15) : List Message :=
  match fallbackStep isDemoMode outcome, outcome with
  | (_, ReplySource.backend), BackendOutcome.ok (some c) =>
    [{ id := respId?.getD (s!"ai-{now}"), chatId := chatId, userId := "ai",
       agentId := agentId, content := c, role := Role.assistant,
       timestamp := respTs?.getD now }]
  | _, _ =>
    [{ id := s!"ai-demo-{now}", chatId := chatId, userId := "ai",
       agentId := agentId, content := getPriyaResponse pick,
       role := Role.assistant, timestamp := now }]

/-! ## Chat Session Controller (`sendMessage` in the App component) -/

/-- The outcome of `chatApi.sendMessageMulti` as `sendMessageWithMultiResponse`
sees it: a resolved response `{success, data: {isMultiMessage, messages}}`,
or a thrown error followed by `sendMessageFallback` with its own backend
outcome. -/
inductive MultiOutcome where
  | ok (success : Bool) (isMulti : Bool) (msgs : List Message)
  | err (fallback : BackendOutcome)
deriving Repr, DecidableEq

/-- The assistant messages one `sendMessageWithMultiResponse` call appends:
all fragments when `success && isMultiMessage`; else the first element of
`messages` if any; on a thrown error, whatever `sendMessageFallback`
appends. -/
def multiResponseAppends (isDemoMode : Bool) (o : MultiOutcome)
    (chatId agentId : String) (now : Nat) (pick : Fin 15)
    (respId? : Option String) (respTs? : Option Nat) : List Message :=
  match o with
  | MultiOutcome.ok success isMulti msgs =>
    if success && isMulti then msgs
    else
      match msgs with
      | [] => []
      | m :: _ => [m]
  | MultiOutcome.err fb =>
    fallbackAppends isDemoMode fb chatId agentId respId? respTs? now pick

/-- The user `Message` object `sendMessage` builds
(`{id: user-..., content: messageText, role: 'user', ...}`). -/
def mkUserMessage (text chatId userId agentId : String) (now : Nat) : Message :=
  { id := s!"user-{now}", chatId := chatId, userId := userId,
    agentId := agentId, content := text, role := Role.user, timestamp := now }

/-- JS `String.prototype.trim`: strip leading and trailing whitespace
(structural model over the character list). -/
def trimString (s : String) : String :=
  ⟨((s.data.dropWhile Char.isWhitespace).reverse.dropWhile
      Char.isWhitespace).reverse⟩

/-- The effect of one `sendMessage()` turn on the message store: the guard
`if (!message.trim() || !currentChat || isSending) return;`, then the
synchronous append of the user message, then the appends of
`sendMessageWithMultiResponse` for the given outcome. -/
def sendMessageStore (input : String) (hasChat isSending isDemoMode : Bool)
    (store : List Message) (chatId userId agentId : String) (now : Nat)
    (o : MultiOutcome) (pick : Fin 15)
    (respId? : Option String) (respTs? : Option Nat) : List Message :=
  if trimString input = "" || !hasChat || isSending then store
  else
    (store ++ [mkUserMessage (trimString input) chatId userId agentId now]) ++
      multiResponseAppends isDemoMode o chatId agentId now pick respId? respTs?

/-! ## Streaming transport (`chatApi.sendMessageStream`, real path) -/

/-- One parsed line of the event stream: a well-formed record
(`connected`/`message`/`complete`/`error`), a `data: ` line whose JSON does
not parse (`malformed`), or a line not starting with `data: ` (`nonData`).
`α` is the opaque `data.data` payload. -/
inductive StreamRecord (α : Type) where
  | connected
  | message (d : α)
  | complete
  | error (e : String)
  | malformed (raw : String)
  | nonData (raw : String)
deriving Repr, DecidableEq

/-- One callback invocation of `sendMessageStream`: `onMessage({type:
'connected'})`, `onMessage({type: 'message', data})`, `onComplete()`, or
`onError(e)`. -/
inductive StreamEmit (α : Type) where
  | connected
  | message (d : α)
  | complete
  | failed (e : String)
deriving Repr, DecidableEq

/-- The line loop of `chatApi.sendMessageStream`: `connected` and `message`
records are forwarded, `complete` invokes `onComplete` (and the loop keeps
reading), `error` invokes `onError` and returns, malformed and non-`data:`
lines are skipped. -/
def processStream {α : Type} : List (StreamRecord α) → List (StreamEmit α)
  | [] => []
  | StreamRecord.connected :: rest => StreamEmit.connected :: processStream rest
  | StreamRecord.message d :: rest => StreamEmit.message d :: processStream rest
  | StreamRecord.complete :: rest => StreamEmit.complete :: processStream rest
  | StreamRecord.error e :: _ => [StreamEmit.failed e]
  | StreamRecord.malformed _ :: rest => processStream rest
  | StreamRecord.nonData _ :: rest => processStream rest

/-- Whether a record is an `{error}` event. -/
def isErrorRecord {α : Type} : StreamRecord α → Bool
  | StreamRecord.error _ => true
  | _ => false

/-- The message payloads of a record sequence, in arrival order. -/
def recordMessages {α : Type} : List (StreamRecord α) → List α
  | [] => []
  | StreamRecord.message d :: rest => d :: recordMessages rest
  | _ :: rest => recordMessages rest

/-- The message payloads of a callback sequence, in delivery order. -/
def emitMessages {α : Type} : List (StreamEmit α) → List α
  | [] => []
  | StreamEmit.message d :: rest => d :: emitMessages rest
  | _ :: rest => emitMessages rest

/-! ## Timed two-turn model (JS timer semantics)

In demo mode `chatApi.sendMessageMulti` resolves without awaiting, so the
absolute append instants of a reveal cycle started at `t0` are determined
by the trace of `revealEvents`: fragment 0 appends at `t0 + typingDelay`,
and each later fragment 1500 ms plus its own typing delay after the
previous append.  Timers fire in time order, so the store ordering of two
overlapping turns is the time-sorted merge of their append instants. -/

/-- `typingDelay` as a function of the content length. -/
def typingDelayLen (len : Nat) : Nat :=
  min (len * 50) 3000

/-- The absolute append instants of a reveal cycle started at `t0` over
fragments of the given content lengths. -/
def appendTimes (t0 : Nat) : List Nat → List Nat
  | [] => []
  | len :: rest =>
    let t := t0 + typingDelayLen len
    t :: appendTimes (t + 1500) rest

/-- A user turn, for labelling store entries. -/
inductive TurnId where
  | A
  | B
deriving Repr, DecidableEq

/-- Label each append instant with its turn and 1-based fragment number. -/
def labelTimes (id : TurnId) : Nat → List Nat → List (Nat × TurnId × Nat)
  | _, [] => []
  | i, t :: rest => (t, id, i) :: labelTimes id (i + 1) rest

/-- The store ordering of the reply fragments of two overlapping turns:
turn A starts its reveal at `tA` with fragments of lengths `lensA`, turn B
at `tB` with `lensB`.  The scheduler fires the pending appends in time
order (a stable sort by instant; the earlier-created timer wins ties). -/
def twoTurnStoreOrder (tA : Nat) (lensA : List Nat) (tB : Nat)
    (lensB : List Nat) : List (TurnId × Nat) :=
  (List.insertionSort (fun a b => a.1 ≤ b.1)
    (labelTimes TurnId.A 1 (appendTimes tA lensA) ++
      labelTimes TurnId.B 1 (appendTimes tB lensB))).map (fun e => e.2)

/-- The `isSending` flag of a turn started at `t0` whose first fragment has
content length `len0`: set `true` synchronously at the start of
`sendMessage`, set `false` when fragment 1 is appended at
`t0 + typingDelayLen len0`, and not raised again by later fragments.  The
input field and the send button are disabled exactly while it is `true`. -/
def isSendingAt (t0 len0 t : Nat) : Bool :=
  decide (t0 ≤ t) && decide (t < t0 + typingDelayLen len0)

/-- `[some s, some (s+1), …]` of length `n`: the strictly increasing run of
`messageIndex` values a well-formed batch carries. -/
def seqIdx : Nat → Nat → List (Option Nat)
  | _, 0 => []
  | s, n + 1 => some s :: seqIdx (s + 1) n

/-! ## Helper lemmas -/

theorem hasSetSending_append (l₁ l₂ : List Ev) :
    hasSetSending (l₁ ++ l₂) = (hasSetSending l₁ || hasSetSending l₂) := by
  induction l₁ with
  | nil => simp [hasSetSending]
  | cons e rest ih => cases e <;> simp [hasSetSending, ih]

theorem hasSetSending_revealLoop_false (rest : List Message) :
    hasSetSending (revealLoop false rest) = false := by
  induction rest with
  | nil => rfl
  | cons y ys ih =>
    cases hy : ys.isEmpty <;>
      simp [revealLoop, displayEvents, hasSetSending_append, hasSetSending, hy, ih]

theorem appendDelaysAux_set (b : Bool) (rest : List Ev) (acc : Nat) :
    appendDelaysAux (Ev.setSending b :: rest) acc = appendDelaysAux rest acc :=
  rfl

theorem appendDelaysAux_delay (d : Nat) (rest : List Ev) (acc : Nat) :
    appendDelaysAux (Ev.delay d :: rest) acc = appendDelaysAux rest (acc + d) :=
  rfl

theorem appendDelaysAux_appendEv (m : Message) (rest : List Ev) (acc : Nat) :
    appendDelaysAux (Ev.append m :: rest) acc = acc :: appendDelaysAux rest 0 :=
  rfl

theorem appendDelaysAux_revealLoop_false (x : Message) (xs : List Message)
    (acc : Nat) :
    appendDelaysAux (revealLoop false (x :: xs)) acc =
      (acc + typingDelay x.content) ::
        xs.map (fun y => 1500 + typingDelay y.content) := by
  induction xs generalizing x acc with
  | nil => simp [revealLoop, displayEvents, appendDelaysAux]
  | cons y ys ih =>
    have step : revealLoop false (x :: y :: ys) =
        Ev.delay (typingDelay x.content) :: Ev.append x :: Ev.delay 1500 ::
          revealLoop false (y :: ys) := by
      simp [revealLoop, displayEvents]
    rw [step, appendDelaysAux_delay, appendDelaysAux_appendEv,
      appendDelaysAux_delay, ih y (0 + 1500)]
    simp

theorem revealLoop_ne_nil (b : Bool) (m : Message) (rest : List Message) :
    revealLoop b (m :: rest) ≠ [] := by
  cases b <;> cases rest <;> simp [revealLoop, displayEvents]

theorem revealLoop_getLast (b : Bool) (m l : Message) (rest : List Message)
    (h : (m :: rest).getLast? = some l) :
    (revealLoop b (m :: rest)).getLast? = some (Ev.append l) := by
  induction rest generalizing b m with
  | nil =>
    simp at h
    subst h
    cases b <;> simp [revealLoop, displayEvents]
  | cons y ys ih =>
    have h' : (y :: ys).getLast? = some l := by
      rw [List.getLast?_cons_cons] at h
      exact h
    have e : revealLoop b (m :: y :: ys) =
        (displayEvents m b (!b) ++
          (if (y :: ys).isEmpty then [] else [Ev.delay 1500])) ++
            revealLoop false (y :: ys) := by
      simp [revealLoop]
    rw [e, List.getLast?_append_of_ne_nil _ (revealLoop_ne_nil false y ys)]
    exact ih false y h'

theorem processStream_append {α : Type} (l₁ l₂ : List (StreamRecord α))
    (h : (l₁.all fun r => !(isErrorRecord r)) = true) :
    processStream (l₁ ++ l₂) = processStream l₁ ++ processStream l₂ := by
  induction l₁ with
  | nil => simp [processStream]
  | cons r rest ih =>
    simp only [List.all_cons, Bool.and_eq_true] at h
    cases r <;> simp [processStream, ih h.2] <;> simp [isErrorRecord] at h

theorem emitMessages_processStream {α : Type} (l : List (StreamRecord α))
    (h : (l.all fun r => !(isErrorRecord r)) = true) :
    emitMessages (processStream l) = recordMessages l := by
  induction l with
  | nil => rfl
  | cons r rest ih =>
    simp only [List.all_cons, Bool.and_eq_true] at h
    cases r <;>
      simp [processStream, emitMessages, recordMessages, ih h.2] <;>
      simp [isErrorRecord] at h

theorem normalizeSend_fragments_ne_nil (r : RawResponse) (c a : String)
    (n : Nat) : (normalizeSend r c a n).fragments ≠ [] := by
  have key : ∀ (b : Bool) (msgs : List String) (tot : Nat) (prim : Message),
      (if b && decide (msgs.length > 1) then SendResult.multi msgs tot prim
        else SendResult.single prim).fragments ≠ [] := by
    intro b msgs tot prim
    by_cases hb : (b && decide (msgs.length > 1)) = true
    · rw [if_pos hb]
      have hlen : msgs.length > 1 :=
        of_decide_eq_true ((Bool.and_eq_true _ _).mp hb).2
      intro hnil
      rw [show (SendResult.multi msgs tot prim).fragments = msgs from rfl] at hnil
      rw [hnil] at hlen
      simp at hlen
    · rw [if_neg hb]
      simp [SendResult.fragments]
  exact key _ _ _ _

/-! ## The claims -/

/-- C1 — the claim says fragments of two overlapping turns never interleave
in the Message Store.  The code has no reveal-cycle serialization: the
`isSending` guard is released when turn A's first fragment is appended
(`displayMessageWithTyping` sets it false there), so turn B may start while
A's reveal is still pacing, and the timers then interleave the appends.
This theorem evaluates the timed model at a concrete failing input: turn A
is a 2-fragment demo batch (the pool's first two fragments, of lengths 71
and 101, both giving the 3000 ms typing-delay cap) started at t = 0; turn B
is the same batch started at t = 3100 ms — allowed, because `isSendingAt`
is false there — and the resulting store ordering is exactly the forbidden
[A1, B1, A2, B2], while B started (3100) before A's reveal finished
(7500). -/
theorem c1_interleaved_ordering_reachable :
    twoTurnStoreOrder 0 [71, 101] 3100 [71, 101] =
      [(TurnId.A, 1), (TurnId.B, 1), (TurnId.A, 2), (TurnId.B, 2)] ∧
    isSendingAt 0 71 3100 = false ∧
    appendTimes 0 [71, 101] = [3000, 7500] ∧
    appendTimes 3100 [71, 101] = [6100, 10600] ∧
    (demoMultiPool.getD 0 "").length = 71 ∧
    (demoMultiPool.getD 1 "").length = 101 := by
  refine ⟨by decide, by decide, by decide, by decide, by decide, by decide⟩

/-- C2 counterexample — the claim says the wait between appending fragment i
and fragment i+1 is the fixed 1500 ms, independent of fragment length.  On
the batch made of the demo pool's first two fragments, the trace of the
reveal cycle waits 3000 ms before the first append and 4500 ms (1500 ms
pause + the second fragment's own 3000 ms typing delay) between the first
and the second append — and 4500 ≠ 1500. -/
theorem c2_intermessage_gap_not_fixed :
    appendDelays (revealEvents
      [plainMsg (demoMultiPool.getD 0 "") 0,
       plainMsg (demoMultiPool.getD 1 "") 100]) = [3000, 4500] ∧
    (4500 : Nat) ≠ 1500 := by
  exact ⟨by decide, by decide⟩

/-- C2 (amended): in the reveal cycle of a batch, the length-proportional
typing delay `min(50·len, 3000)` is awaited before EVERY fragment, not only
fragment 1; consequently the total wait between appending fragment i and
fragment i+1 is 1500 ms plus fragment i+1's typing delay (and the wait
before fragment 1 is exactly its typing delay). -/
theorem c2_delay_structure (m : Message) (rest : List Message) :
    appendDelays (revealEvents (m :: rest)) =
      typingDelay m.content ::
        rest.map (fun x => 1500 + typingDelay x.content) := by
  cases rest with
  | nil => simp [appendDelays, revealEvents, revealLoop, displayEvents, appendDelaysAux]
  | cons y ys =>
    have step : revealEvents (m :: y :: ys) =
        Ev.setSending true :: Ev.delay (typingDelay m.content) ::
          Ev.setSending false :: Ev.append m :: Ev.delay 1500 ::
          revealLoop false (y :: ys) := by
      simp [revealEvents, revealLoop, displayEvents]
    rw [show appendDelays (revealEvents (m :: y :: ys)) =
        appendDelaysAux (revealEvents (m :: y :: ys)) 0 from rfl]
    rw [step, appendDelaysAux_set, appendDelaysAux_delay, appendDelaysAux_set,
      appendDelaysAux_appendEv, appendDelaysAux_delay,
      appendDelaysAux_revealLoop_false y ys (0 + 1500)]
    simp

/-- C3 counterexample — the claim says a send-path failure leaves the sticky
demo-mode flag unchanged.  At the concrete input: not in demo mode, the
backend call inside `sendMessageFallback` throws; the code runs
`setIsDemoMode(true)`, so the flag after the turn is `true`, not the
unchanged `false` — while the demo responder does supply the reply. -/
theorem c3_flag_flips_on_failure :
    (fallbackStep false BackendOutcome.err).1 = true ∧
    ¬ (fallbackStep false BackendOutcome.err).1 = false ∧
    (fallbackStep false BackendOutcome.err).2 = ReplySource.demo := by
  exact ⟨rfl, by decide, rfl⟩

/-- C3 (amended): on a send-path gateway failure the controller does invoke
the Demo Responder and reveals its reply, but it permanently sets the
sticky demo-mode flag to `true` (`setIsDemoMode(true)` in the catch of
`sendMessageFallback`); once the flag is `true` every later turn goes
straight to the demo responder.  Only a backend response without usable
`content` (no throw) falls back for one turn without touching the flag. -/
theorem c3_fallback_and_sticky_flag :
    fallbackStep false BackendOutcome.err = (true, ReplySource.demo) ∧
    (∀ o : BackendOutcome, fallbackStep true o = (true, ReplySource.demo)) ∧
    fallbackStep false (BackendOutcome.ok none) = (false, ReplySource.demo) := by
  refine ⟨rfl, ?_, rfl⟩
  intro o
  rfl

/-- C4: gateway normalization of a successful send-message response —
`{isMultiMessage: true, messages: ["a","b","c"]}` yields the 3-fragment
batch `["a","b","c"]` (in the multi format); `{content: "solo"}` yields the
1-fragment batch `["solo"]`; `{}` yields the 1-fragment batch with the
fixed "No content" placeholder; and for every response shape a successful
parse yields a non-empty fragment list. -/
theorem c4_normalization :
    (normalizeSend { isMultiMessage := true, messages? := some ["a", "b", "c"] }
        "chat-1" "priya" 5).fragments = ["a", "b", "c"] ∧
    (normalizeSend { isMultiMessage := true, messages? := some ["a", "b", "c"] }
        "chat-1" "priya" 5).isMulti = true ∧
    (normalizeSend { content? := some "solo" } "chat-1" "priya" 5).fragments =
      ["solo"] ∧
    (normalizeSend {} "chat-1" "priya" 5).fragments = ["No content"] ∧
    ∀ (r : RawResponse) (c a : String) (n : Nat),
      (normalizeSend r c a n).fragments ≠ [] := by
  exact ⟨rfl, rfl, rfl, rfl, normalizeSend_fragments_ne_nil⟩

/-- C5: in the reveal cycle of any non-empty batch, the `isSending` flag is
raised as the very first event, stays up throughout the typing delay that
precedes fragment 1, is lowered immediately before fragment 1's append (the
same synchronous step), and no `isSending` write of any kind occurs in the
remainder of the batch's trace. -/
theorem c5_typing_indicator (m : Message) (rest : List Message) :
    ∃ tail,
      revealEvents (m :: rest) =
        Ev.setSending true :: Ev.delay (typingDelay m.content) ::
          Ev.setSending false :: Ev.append m :: tail ∧
      hasSetSending tail = false := by
  refine ⟨(if rest.isEmpty then [] else [Ev.delay 1500]) ++ revealLoop false rest,
    ?_, ?_⟩
  · simp [revealEvents, revealLoop, displayEvents]
  · rw [hasSetSending_append]
    cases h : rest.isEmpty <;>
      simp [hasSetSending, hasSetSending_revealLoop_false]

/-- C6: the Demo Responder's multi-message respond operation is total and
returns a well-formed batch for every random draw: `success` is true, the
fragment count `N = rand + 2 ∈ {2,3,4}`, `messageIndex` values are exactly
`1..N` in strictly increasing order, `totalMessages = N` on every fragment,
`isFirst` holds exactly on the fragment with index 1, `isAdditional` on all
others, and the per-fragment timestamps are strictly increasing. -/
theorem c6_demo_multi_shape (c a : String) (t : Nat) (r : Fin 3) :
    (sendMessageMultiDemo c a t r).success = true ∧
    (sendMessageMultiDemo c a t r).isMultiMessage = true ∧
    (sendMessageMultiDemo c a t r).totalMessages = r.val + 2 ∧
    2 ≤ r.val + 2 ∧ r.val + 2 ≤ 4 ∧
    (sendMessageMultiDemo c a t r).messages.length = r.val + 2 ∧
    (sendMessageMultiDemo c a t r).messages.map Message.messageIndex =
      seqIdx 1 (r.val + 2) ∧
    (sendMessageMultiDemo c a t r).messages.map Message.totalMessages =
      List.replicate (r.val + 2) (some (r.val + 2)) ∧
    (sendMessageMultiDemo c a t r).messages.map Message.isFirst =
      some true :: List.replicate (r.val + 1) (some false) ∧
    (sendMessageMultiDemo c a t r).messages.map Message.isAdditional =
      some false :: List.replicate (r.val + 1) (some true) ∧
    List.Chain' (fun x y => x < y)
      ((sendMessageMultiDemo c a t r).messages.map Message.timestamp) := by
  fin_cases r <;>
    refine ⟨rfl, rfl, rfl, by decide, by decide, rfl, rfl, rfl, rfl, rfl, ?_⟩ <;>
    simp [sendMessageMultiDemo, demoMultiPool, mapWithIndex, List.chain'_cons]

/-- C7: for a non-empty (after trim) user input, with a chat present and no
send in flight, one `sendMessage` turn leaves the store equal to the old
store, then the user's message, then whatever the reveal path appends — for
EVERY gateway outcome, including a thrown multi-send call followed by a
thrown fallback send.  In particular the user's message is in the final
store; prior entries are never removed or mutated. -/
theorem c7_user_message_persisted (input : String) (isDemoMode : Bool)
    (store : List Message) (chatId userId agentId : String) (now : Nat)
    (o : MultiOutcome) (pick : Fin 15) (respId? : Option String)
    (respTs? : Option Nat) (h : trimString input ≠ "") :
    sendMessageStore input true false isDemoMode store chatId userId agentId now
        o pick respId? respTs? =
      (store ++ [mkUserMessage (trimString input) chatId userId agentId now]) ++
        multiResponseAppends isDemoMode o chatId agentId now pick respId? respTs? ∧
    mkUserMessage (trimString input) chatId userId agentId now ∈
      sendMessageStore input true false isDemoMode store chatId userId agentId now
        o pick respId? respTs? := by
  constructor
  · simp [sendMessageStore, h]
  · simp [sendMessageStore, h]

/-- C7 witness: a concrete turn — input "hi", empty store, multi send throws
and the fallback send throws too — still places the user message in the
store right after the old entries. -/
theorem c7_user_message_persisted_witness :
    sendMessageStore "hi" true false false [] "chat-1" "u-1" "priya" 7
        (MultiOutcome.err BackendOutcome.err) 0 none none =
      ([] ++ [mkUserMessage (trimString "hi") "chat-1" "u-1" "priya" 7]) ++
        multiResponseAppends false (MultiOutcome.err BackendOutcome.err) "chat-1"
          "priya" 7 0 none none ∧
    mkUserMessage (trimString "hi") "chat-1" "u-1" "priya" 7 ∈
      sendMessageStore "hi" true false false [] "chat-1" "u-1" "priya" 7
        (MultiOutcome.err BackendOutcome.err) 0 none none :=
  c7_user_message_persisted "hi" false [] "chat-1" "u-1" "priya" 7
    (MultiOutcome.err BackendOutcome.err) 0 none none (by decide)

/-- C8 counterexample — the claim says a `{complete}` event terminates the
callback sequence.  The loop only `return`s on `{error}`: on the concrete
stream [connected, message "a", complete, message "b"] the code still
delivers the message callback for "b" AFTER invoking `onComplete`, so
`complete` does not terminate the sequence. -/
theorem c8_complete_does_not_terminate :
    processStream [StreamRecord.connected, StreamRecord.message "a",
        StreamRecord.complete, StreamRecord.message "b"] =
      [StreamEmit.connected, StreamEmit.message "a", StreamEmit.complete,
        StreamEmit.message "b"] ∧
    (processStream [StreamRecord.connected, StreamRecord.message "a",
        StreamRecord.complete, StreamRecord.message "b"]).getLast? =
      some (StreamEmit.message "b") := by
  exact ⟨rfl, rfl⟩

/-- C8 (amended): an `{error}` event terminates the callback sequence
immediately — nothing is delivered after the error callback — and is
surfaced via `onError`; a `{complete}` event invokes `onComplete` but does
NOT terminate processing (records after it are still delivered); message
payloads are passed through unmodified and in arrival order (on any
error-free stream the delivered payloads equal the arriving ones); and a
malformed record is skipped without terminating the stream. -/
theorem c8_stream_semantics :
    (∀ (α : Type) (pre post : List (StreamRecord α)) (e : String),
        (pre.all fun r => !(isErrorRecord r)) = true →
        processStream (pre ++ StreamRecord.error e :: post) =
          processStream pre ++ [StreamEmit.failed e]) ∧
    (∀ (α : Type) (l : List (StreamRecord α)),
        (l.all fun r => !(isErrorRecord r)) = true →
        emitMessages (processStream l) = recordMessages l) ∧
    (∀ (α : Type) (raw : String) (rest : List (StreamRecord α)),
        processStream (StreamRecord.malformed raw :: rest) =
          processStream rest) := by
  refine ⟨?_, ?_, ?_⟩
  · intro α pre post e h
    rw [processStream_append pre (StreamRecord.error e :: post) h]
    rfl
  · intro α l h
    exact emitMessages_processStream l h
  · intro α raw rest
    rfl

/-- C9: no delay follows the final fragment of a batch — the very last event
of the reveal cycle's trace is the append of the batch's last fragment, so
the cycle completes immediately after it (the 1500 ms pause is emitted only
between fragments, never after the last). -/
theorem c9_completion_immediately_after_last_append (msgs : List Message)
    (l : Message) (h : msgs.getLast? = some l) :
    (revealEvents msgs).getLast? = some (Ev.append l) := by
  cases msgs with
  | nil => simp at h
  | cons m rest => exact revealLoop_getLast true m l rest h

/-- C9 witness: on the concrete one-fragment batch ["hello"], the trace ends
with the append of that fragment. -/
theorem c9_completion_witness :
    (revealEvents [plainMsg "hello" 0]).getLast? =
      some (Ev.append (plainMsg "hello" 0)) :=
  c9_completion_immediately_after_last_append [plainMsg "hello" 0]
    (plainMsg "hello" 0) rfl

/-- C10: a response carrying a one-element `messages` array and no content
field — `{messages: ["a"]}` — never has that array read by the extraction
steps (they fire only for length > 1), so the result is the single fragment
"No content" and the array's text is discarded; likewise for any
one-element array. -/
theorem c10_single_element_array_discarded :
    (normalizeSend { messages? := some ["a"] } "chat-1" "priya" 5).fragments =
      ["No content"] ∧
    ∀ (s c a : String) (n : Nat),
      (normalizeSend { messages? := some [s] } c a n).fragments =
        ["No content"] := by
  exact ⟨rfl, fun s c a n => rfl⟩

end NiyaFrontend
